import Mathlib

/-!
# Verification of the 10khours practice-timer core

Shallow embedding of the client-side timing subsystem of the 10khours
repository: the metronome engine (`src/hooks/useMetronome.ts`), the two
mobile practice-timer components (`src/components/MobilePracticeTimer.tsx`,
`src/components/MobileOptimizedTimer.tsx`), the screen wake-lock hook
(the `useScreenWakeLock` portion of `src/hooks/useKeyboardShortcuts.ts`
source bundle) and the debounced slider hook (`useDebouncedSlider`).

JavaScript numbers that only ever hold exact values are embedded as `ℕ`,
`ℤ` or `ℚ`; `Math.round` on a nonnegative quotient `n / d` is embedded as
`(2 * n + d) / (2 * d)` over `ℕ` (JS rounds halves up).  Asynchronous code
is embedded as explicit state-passing step functions; the event-loop
interleavings a claim talks about are spelled out as explicit traces.
-/

namespace TenK

/-- JS `Math.round (n / d)` for natural `n` and positive natural `d`:
round half up, i.e. `⌊(n / d) + 1/2⌋ = ⌊(2n + d) / (2d)⌋`. -/
def jsRoundDiv (n d : ℕ) : ℕ := (2 * n + d) / (2 * d)

/-! ## Metronome engine (`src/hooks/useMetronome.ts`) -/

/-- The `sound` field of `MetronomeSettings`. -/
inductive Sound
  | click
  | beep
  | wood
  | digital
deriving DecidableEq, Repr

/-- `MetronomeSettings` from `useMetronome.ts`. -/
structure MetronomeSettings where
  bpm : ℕ
  volume : ℚ
  sound : Sound
  accent : Bool
  timeSignature : ℕ
deriving DecidableEq, Repr

/-- The default settings set up in `useMetronome` (`bpm 120, volume 1.0,
sound click, accent true, timeSignature 4`). -/
def defaultSettings : MetronomeSettings :=
  { bpm := 120, volume := 1, sound := .click, accent := true, timeSignature := 4 }

/-- The default settings with the volume slider dragged to its minimum
(the `MobileMetronomeControl` volume slider allows 0). -/
def zeroVolumeSettings : MetronomeSettings :=
  { defaultSettings with volume := 0 }

/-- Oscillator waveform chosen by `createSound`'s `switch` on the sound kind. -/
inductive Waveform
  | square
  | sine
  | sawtooth
  | triangle
deriving DecidableEq, Repr

/-- Waveform per sound kind, from `createSound`. -/
def soundWaveform : Sound → Waveform
  | .click => .square
  | .beep => .sine
  | .wood => .sawtooth
  | .digital => .triangle

/-- Frequency multiplier applied in `createSound`'s `switch`
(`click`: `frequency * 2`, `wood`: `frequency * 0.5`, others unchanged). -/
def soundFreqFactor : Sound → ℚ
  | .click => 2
  | .beep => 1
  | .wood => 1 / 2
  | .digital => 1

/-- A synthesized tone: the observable output of `createSound`
(waveform, final oscillator frequency, peak gain the linear ramp reaches,
and tone duration in seconds). -/
structure Tone where
  waveform : Waveform
  frequency : ℚ
  peakGain : ℚ
  toneDuration : ℚ
deriving DecidableEq, Repr

/-- `createSound(frequency, duration, volume)`: picks the waveform and
rescales the frequency by the sound kind, ramps the gain up to `volume`. -/
def createSound (sound : Sound) (frequency toneDuration volume : ℚ) : Tone :=
  { waveform := soundWaveform sound
    frequency := frequency * soundFreqFactor sound
    peakGain := volume
    toneDuration := toneDuration }

/-- JS `k % ts === 0` where `k`, `ts` are numbers: when `ts = 0` the
remainder is `NaN` and the comparison is false. -/
def jsModZero (k ts : ℕ) : Bool := if ts = 0 then false else k % ts == 0

/-- The accent test used by both `playBeat` and the interval callback in
`start`: `settings.accent && (beatCountRef.current % settings.timeSignature === 0)`. -/
def isAccentBeat (s : MetronomeSettings) (beatCount : ℕ) : Bool :=
  s.accent && jsModZero beatCount s.timeSignature

/-- The tone emitted for beat number `beatCount` (`playBeat` and the
interval callback body compute the same frequency/volume/duration):
frequency `800` on an accent beat else `400`, volume
`settings.volume * 1.2` on an accent beat else `settings.volume`,
duration `0.1` seconds, all passed through `createSound`. -/
def beatTone (s : MetronomeSettings) (beatCount : ℕ) : Tone :=
  let acc := isAccentBeat s beatCount
  createSound s.sound (if acc then 800 else 400) (1 / 10)
    (s.volume * (if acc then 6 / 5 else 1))

/-- The mutable state of one `useMetronome` instance: the `isPlaying` and
`currentBeat` React states, the current settings, `beatCountRef`,
`intervalRef` (present iff an interval is scheduled, carrying its period
in milliseconds), and the two re-entrancy guard refs. -/
structure MetState where
  isPlaying : Bool
  settings : MetronomeSettings
  beatCount : ℕ
  currentBeat : ℕ
  intervalPeriodMs : Option ℚ
  startInProgress : Bool
  toggleInProgress : Bool
deriving DecidableEq, Repr

/-- State of a freshly mounted `useMetronome` hook. -/
def initMetState (s : MetronomeSettings) : MetState :=
  { isPlaying := false, settings := s, beatCount := 0, currentBeat := 0
    intervalPeriodMs := none, startInProgress := false, toggleInProgress := false }

/-- The audio environment `start` runs against: whether an
`AudioContext` can be obtained, whether it is suspended, and whether
`resume()` succeeds. -/
structure AudioEnv where
  ctxAvailable : Bool
  suspended : Bool
  resumeOk : Bool
deriving DecidableEq, Repr

/-- `start()` from `useMetronome.ts`: early-return when already playing or
a start is in progress; otherwise obtain/resume the audio context (a
thrown error is caught, `setIsPlaying(false)` runs and the error is
re-thrown — embedded as `some errorMessage`), then `setIsPlaying(true)`,
reset `beatCountRef` to 0, play the first beat immediately via
`playBeat()` (which increments `beatCountRef`), and schedule the interval
with period `60000 / settings.bpm` milliseconds.  Result: the state after
the call, the propagated error if any, and the tones emitted
synchronously during the call. -/
def startRun (env : AudioEnv) (s : MetState) : MetState × Option String × List Tone :=
  if s.isPlaying || s.startInProgress then (s, none, [])
  else if !env.ctxAvailable then
    ({ s with isPlaying := false, startInProgress := false },
      some "Audio context not available", [])
  else if env.suspended && !env.resumeOk then
    ({ s with isPlaying := false, startInProgress := false },
      some "resume failed", [])
  else
    let s1 := { s with isPlaying := true, beatCount := 0 }
    let tone := beatTone s1.settings s1.beatCount
    ({ s1 with
        beatCount := s1.beatCount + 1
        intervalPeriodMs := some (60000 / (s1.settings.bpm : ℚ))
        startInProgress := false },
      none, [tone])

/-- One firing of the interval scheduled by `start`: emit the beat for
the current `beatCountRef`, increment it, and set
`currentBeat = beatCountRef.current % timeSignature + 1`.  No-op when no
interval is scheduled. -/
def intervalTick (s : MetState) : MetState × Option Tone :=
  match s.intervalPeriodMs with
  | none => (s, none)
  | some _ =>
    let tone := beatTone s.settings s.beatCount
    let bc := s.beatCount + 1
    ({ s with beatCount := bc, currentBeat := bc % s.settings.timeSignature + 1 },
      some tone)

/-- `stop()` from `useMetronome.ts`: clear the interval,
`setIsPlaying(false)`, `setCurrentBeat(0)`.  (`beatCountRef` is not
touched.) -/
def stopRun (s : MetState) : MetState :=
  { s with intervalPeriodMs := none, isPlaying := false, currentBeat := 0 }

/-- Scheduled emission time (ms after `start` returns) of pulse number `k`
when the interval period is `periodMs`: the first pulse is played
synchronously inside `start` (time 0) and each later pulse one period
after the previous. -/
def pulseTime (periodMs : ℚ) (k : ℕ) : ℚ := k * periodMs

/-- What the synchronous prefix of a `toggle()` call decided to do:
it was ignored by the `toggleInProgressRef` guard, it ran `stop()`
synchronously, or it dispatched into the asynchronous `start()`. -/
inductive ToggleCont
  | ignored
  | stopped
  | startPending
deriving DecidableEq, Repr

/-- The synchronous prefix of `toggle()` from `useMetronome.ts`: if
`toggleInProgressRef.current` is set the call returns at once; otherwise
the flag is set and, if playing, `stop()` runs synchronously, else the
call suspends awaiting `start()` (whose body is `startRun`).  The flag is
reset only by a 100 ms `setTimeout` after completion (`toggleFlagReset`). -/
def togglePhase1 (s : MetState) : MetState × ToggleCont :=
  if s.toggleInProgress then (s, .ignored)
  else
    let s1 := { s with toggleInProgress := true }
    if s1.isPlaying then (stopRun s1, .stopped)
    else (s1, .startPending)

/-- The deferred `setTimeout` in `toggle`'s `finally` block that clears
`toggleInProgressRef` 100 ms after the call finished. -/
def toggleFlagReset (s : MetState) : MetState := { s with toggleInProgress := false }

/-- Count of adjacent changes in a boolean trace (used to count
playing/stopped state changes across an interleaving). -/
def countFlips : List Bool → ℕ
  | a :: b :: t => (if a = b then 0 else 1) + countFlips (b :: t)
  | _ => 0

/-- The interleaving the double-toggle claim talks about: a first
`toggle()` call runs its synchronous prefix, a second `toggle()` call
runs in full while the first call's promise is still unresolved, then the
first call completes (running `start()`'s body when it dispatched to
start) and its flag-reset timeout fires.  Returns the trace of states
after each step. -/
def concurrentToggleTrace (env : AudioEnv) (s : MetState) : List MetState :=
  let p1 := togglePhase1 s
  let p2 := togglePhase1 p1.1
  let s3 := match p1.2 with
    | .startPending => (startRun env p2.1).1
    | _ => p2.1
  [s, p1.1, p2.1, s3, toggleFlagReset s3]

/-! ## MobilePracticeTimer (`src/components/MobilePracticeTimer.tsx`) -/

/-- One entry of the in-progress session's `pauses` array:
`{ start: Date; end?: Date }`, times in epoch milliseconds. -/
structure Pause where
  start : ℤ
  end_ : Option ℤ
deriving DecidableEq, Repr

/-- The `PracticeSession` record held in `sessionRef` (fields the duration
computation reads: `startTime` and `pauses`; times in epoch ms). -/
structure MPSession where
  startTime : ℤ
  pauses : List Pause
deriving DecidableEq, Repr

/-- Number of open (end-unset) pause intervals in a pauses list. -/
def openPauseCount (ps : List Pause) : ℕ :=
  (ps.filter (fun p => p.end_.isNone)).length

/-- `totalPauseTime` computed in `savePracticeSession`: each pause
contributes `(pause.end ?? endTime) - pause.start`. -/
def totalPauseTime (ps : List Pause) (endTime : ℤ) : ℤ :=
  ps.foldl (fun acc p => acc + ((p.end_.getD endTime) - p.start)) 0

/-- The `duration_minutes` value `MobilePracticeTimer.savePracticeSession`
persists: `practiceTime = max(0, (endTime - startTime) - totalPauseTime)`
in milliseconds, then `Math.round(practiceTime / 60000)`. -/
def mptDurationMinutes (session : MPSession) (endTime : ℤ) : ℕ :=
  let totalTime := endTime - session.startTime
  let practiceTime := max 0 (totalTime - totalPauseTime session.pauses endTime)
  jsRoundDiv practiceTime.toNat 60000

/-- `MobilePracticeTimer.savePracticeSession` as a record emitter: it
returns early (persisting nothing) when `seconds === 0`, otherwise it
persists a record whose `duration_minutes` is `mptDurationMinutes`. -/
def mptSave (seconds : ℕ) (session : MPSession) (now : ℤ) : Option ℕ :=
  if seconds = 0 then none else some (mptDurationMinutes session now)

/-- Observable state of one `MobilePracticeTimer`: the `seconds` tick
counter, the `isRunning`/`isPaused` flags, `sessionRef`, and the list of
`duration_minutes` values persisted so far. -/
structure MPTState where
  seconds : ℕ
  isRunning : Bool
  isPaused : Bool
  session : MPSession
  saved : List ℕ
deriving DecidableEq, Repr

/-- State after the mount effect initialized `sessionRef`
(`startTime: new Date(), duration: 0, notes: '', pauses: []`). -/
def initMPT (mountTime : ℤ) : MPTState :=
  { seconds := 0, isRunning := false, isPaused := false
    session := { startTime := mountTime, pauses := [] }, saved := [] }

/-- The resume branch of `handlePlayPause`: look at the last element of
`pauses` and set its `end` to now if it exists and is open. -/
def closeLastOpenPause (ps : List Pause) (now : ℤ) : List Pause :=
  match ps.getLast? with
  | some p => if p.end_ = none then ps.dropLast ++ [{ p with end_ := some now }] else ps
  | none => ps

/-- `handlePlayPause` from `MobilePracticeTimer.tsx`: start when not
running (set `startTime` to now), resume when paused (close the last open
pause), otherwise pause (push an open pause). -/
def mptPlayPause (now : ℤ) (st : MPTState) : MPTState :=
  if !st.isRunning then
    { st with isRunning := true, isPaused := false
              session := { st.session with startTime := now } }
  else if st.isPaused then
    { st with isPaused := false
              session := { st.session with
                pauses := closeLastOpenPause st.session.pauses now } }
  else
    { st with isPaused := true
              session := { st.session with
                pauses := st.session.pauses ++ [{ start := now, end_ := none }] } }

/-- One 1-second tick: the interval only exists while running and not
paused. -/
def mptTick (st : MPTState) : MPTState :=
  if st.isRunning && !st.isPaused then { st with seconds := st.seconds + 1 } else st

/-- `handleStop` from `MobilePracticeTimer.tsx`: run
`savePracticeSession()`, then `setIsRunning(false)`, `setIsPaused(false)`,
`setSeconds(0)`.  The session object is neither reset nor are its open
pauses closed. -/
def mptStop (now : ℤ) (st : MPTState) : MPTState :=
  let saved := match mptSave st.seconds st.session now with
    | some d => st.saved ++ [d]
    | none => st.saved
  { st with saved := saved, isRunning := false, isPaused := false, seconds := 0 }

/-- User-visible events of the MobilePracticeTimer, stamped with the
wall-clock time (epoch ms) at which they occur. -/
inductive MPTEvent
  | playPause (now : ℤ)
  | tick
  | stopTimer (now : ℤ)
deriving DecidableEq, Repr

/-- Apply one event. -/
def mptStep (e : MPTEvent) (st : MPTState) : MPTState :=
  match e with
  | .playPause now => mptPlayPause now st
  | .tick => mptTick st
  | .stopTimer now => mptStop now st

/-- Run a sequence of events. -/
def mptRun (evs : List MPTEvent) (st : MPTState) : MPTState :=
  evs.foldl (fun s e => mptStep e s) st

/-! ## MobileOptimizedTimer (`src/components/MobileOptimizedTimer.tsx`) -/

/-- `MobileOptimizedTimer.savePracticeSession`: `durationMinutes =
Math.round(session.duration / 60)` where `session.duration` is the
1-second tick counter, and the record is inserted only when
`durationMinutes > 0`. -/
def moSave (sessionDurationSecs : ℕ) : Option ℕ :=
  let durationMinutes := jsRoundDiv sessionDurationSecs 60
  if durationMinutes > 0 then some durationMinutes else none

/-- Modelled from the spec: the duration policy of §4.2/§8 of the spec
("round to nearest whole minute, floor at 1 minute if
`elapsedSeconds > 0`"), applied to the running practice time in
milliseconds.  Stated only for comparison against the code's
`mptDurationMinutes`/`moSave`, which are the authority. -/
def specDurationMinutes (practiceMs : ℕ) : ℕ :=
  max 1 (jsRoundDiv practiceMs 60000)

/-! ## Screen wake lock (`useScreenWakeLock`) -/

/-- The environment `enableWakeLock` runs against: whether NoSleep.js
could be constructed (`noSleepRef.current` set), whether its `enable()`
resolves, whether the native Wake Lock API exists, and whether its
`request('screen')` resolves. -/
structure WakeEnv where
  noSleepAvailable : Bool
  noSleepEnableOk : Bool
  nativeAvailable : Bool
  nativeRequestOk : Bool
deriving DecidableEq, Repr

/-- The hook state `enableWakeLock` mutates: the `isWakeLockActive` React
state and whether a native sentinel is held in `wakeLockRef`. -/
structure WakeState where
  isWakeLockActive : Bool
  nativeHeld : Bool
deriving DecidableEq, Repr

/-- `enableWakeLock()` from `useScreenWakeLock`: try NoSleep.js first
(failure caught and logged), then — only if that did not succeed — the
native Wake Lock API (failure caught and logged); if neither succeeded,
`setIsWakeLockActive(false)`.  Returns the resolved boolean together with
the resulting state; every failure path is caught, so the embedding is a
total function (no exception reaches the caller). -/
def enableWakeLock (env : WakeEnv) (s : WakeState) : Bool × WakeState :=
  let m1 : Bool × WakeState :=
    if env.noSleepAvailable then
      if env.noSleepEnableOk then (true, { s with isWakeLockActive := true })
      else (false, s)
    else (false, s)
  let m2 : Bool × WakeState :=
    if m1.1 then m1
    else if env.nativeAvailable then
      if env.nativeRequestOk then
        (true, { m1.2 with isWakeLockActive := true, nativeHeld := true })
      else m1
    else m1
  if m2.1 then m2 else (false, { m2.2 with isWakeLockActive := false })

/-! ## Debounced slider hook (`useDebouncedSlider`, `src/unnamed/part_006`) -/

/-- A scheduled save timeout: the one set by `handleEnd` reads
`valueRef.current` when it fires; the one set by `handleChange` closes
over the `newValue` it was scheduled with. -/
inductive PendingSave (T : Type)
  | fromEnd
  | fromChange (v : T)
deriving DecidableEq, Repr

/-- State of one `useDebouncedSlider` instance: the `value`,
`isInteracting` and `isPending` React states, the `valueRef` and
`isInteractingRef` refs, the timeout currently referenced by
`timeoutRef.current`, and timeouts whose handle was overwritten without
being cleared (they are still scheduled and will fire). -/
structure SliderState (T : Type) where
  value : T
  isInteracting : Bool
  isPending : Bool
  valueRef : T
  isInteractingRef : Bool
  current : Option (PendingSave T)
  orphaned : List (PendingSave T)
deriving DecidableEq, Repr

/-- A freshly mounted hook with the given `initialValue`. -/
def initSlider {T : Type} (initialValue : T) : SliderState T :=
  { value := initialValue, isInteracting := false, isPending := false
    valueRef := initialValue, isInteractingRef := false
    current := none, orphaned := [] }

/-- `cancelSave`: `clearTimeout(timeoutRef.current)` (genuinely cancels
the referenced timeout) and `setIsPending(false)`. -/
def cancelSave {T : Type} (s : SliderState T) : SliderState T :=
  { s with current := none, isPending := false }

/-- `handleStart` (`onStart`): mark interaction begun and cancel any
pending save. -/
def handleStart {T : Type} (s : SliderState T) : SliderState T :=
  cancelSave { s with isInteractingRef := true, isInteracting := true }

/-- `handleEnd` (`onEnd`): mark interaction ended, `setIsPending(true)`
and assign a new save timeout to `timeoutRef.current`.  The previous
timeout, if any, is overwritten without `clearTimeout` and stays
scheduled (it becomes orphaned). -/
def handleEnd {T : Type} (s : SliderState T) : SliderState T :=
  { s with isInteractingRef := false, isInteracting := false
           isPending := true
           current := some .fromEnd
           orphaned := s.orphaned ++ s.current.toList }

/-- `handleChange` (`onChange`): update `valueRef` and `value`
immediately; when not interacting, additionally `cancelSave()` and
schedule a save closing over the new value. -/
def handleChange {T : Type} (v : T) (s : SliderState T) : SliderState T :=
  let s1 := { s with valueRef := v, value := v }
  if s1.isInteractingRef then s1
  else
    let s2 := cancelSave s1
    { s2 with isPending := true, current := some (.fromChange v) }

/-- The `useEffect` watching `initialValue`: when the prop changes while
not interacting, overwrite `value` and `valueRef`; while interacting the
update is skipped (and, the effect not re-running later, dropped). -/
def propUpdate {T : Type} (v : T) (s : SliderState T) : SliderState T :=
  if s.isInteractingRef then s else { s with value := v, valueRef := v }

/-- The timeout referenced by `timeoutRef.current` fires: a `fromEnd`
save reads `valueRef.current` at fire time, a `fromChange v` save uses
its captured `v`; either way `setIsPending(false)` runs (the save
callback's own failure is caught).  Returns the saved value. -/
def fireCurrent {T : Type} (s : SliderState T) : SliderState T × Option T :=
  match s.current with
  | none => (s, none)
  | some .fromEnd => ({ s with isPending := false, current := none }, some s.valueRef)
  | some (.fromChange v) => ({ s with isPending := false, current := none }, some v)

/-- Events at the hook boundary. -/
inductive SliderEvent (T : Type)
  | interactStart
  | interactEnd
  | change (v : T)
  | propChange (v : T)
  | fireTimeout
deriving DecidableEq, Repr

/-- Apply one event; the second component lists the values passed to the
`onSave` callback during the event. -/
def sliderStep {T : Type} (e : SliderEvent T) (s : SliderState T) :
    SliderState T × List T :=
  match e with
  | .interactStart => (handleStart s, [])
  | .interactEnd => (handleEnd s, [])
  | .change v => (handleChange v s, [])
  | .propChange v => (propUpdate v s, [])
  | .fireTimeout =>
    let r := fireCurrent s
    (r.1, r.2.toList)

/-- Run a sequence of slider events, collecting every `onSave` call. -/
def sliderRun {T : Type} : List (SliderEvent T) → SliderState T → SliderState T × List T
  | [], s => (s, [])
  | e :: evs, s =>
    let r := sliderStep e s
    let rest := sliderRun evs r.1
    (rest.1, r.2 ++ rest.2)

/-! ## Theorems -/

/-- Helper: `jsRoundDiv p 60000` reaches 1 exactly from 30000 ms up. -/
theorem jsRoundDiv_60000_pos {p : ℕ} (h : 30000 ≤ p) : 1 ≤ jsRoundDiv p 60000 := by
  unfold jsRoundDiv
  have h120 : (0:ℕ) < 2 * 60000 := by norm_num
  rw [Nat.le_div_iff_mul_le h120]
  omega

/-- Helper: below 30000 ms of practice the rounded minutes are 0. -/
theorem jsRoundDiv_60000_zero {p : ℕ} (h : p < 30000) : jsRoundDiv p 60000 = 0 := by
  unfold jsRoundDiv
  exact Nat.div_eq_of_lt (by omega)

/-- C1: the claim fails on the code.  `MobilePracticeTimer` stopped after
20 s of uninterrupted practice (`seconds = 20 > 0`, wall-clock span
20000 ms, no pauses) persists `duration_minutes = 0`, not the
1-minute floor the claim requires; and `MobileOptimizedTimer` with a
20 s tick counter persists nothing at all, computing from the tick
counter instead of wall-clock-minus-pauses. -/
theorem c1_duration_floor_counterexample :
    mptSave 20 { startTime := 0, pauses := [] } 20000 = some 0 ∧
    specDurationMinutes 20000 = 1 ∧
    mptSave 20 { startTime := 0, pauses := [] } 20000 ≠ some (specDurationMinutes 20000) ∧
    moSave 20 = none := by
  refine ⟨by decide, by decide, ?_, by decide⟩
  decide

/-- C1 (amended): for `MobilePracticeTimer`, every stop with a nonzero
tick counter persists `round((endTime - startTime - Σ pause lengths) / 60000)`
with no 1-minute floor: the persisted value agrees with the spec's
floored policy exactly when at least 30000 ms of running time elapsed and
is 0 below that; `MobileOptimizedTimer` instead persists
`round(tickSeconds / 60)` computed from the tick counter, and only when
that rounds to a positive number. -/
theorem c1_duration_minutes_amended (seconds : ℕ) (session : MPSession) (now : ℤ)
    (h : seconds ≠ 0) :
    mptSave seconds session now = some (mptDurationMinutes session now) ∧
    (∀ p : ℕ, 30000 ≤ p → jsRoundDiv p 60000 = specDurationMinutes p) ∧
    (∀ p : ℕ, p < 30000 → jsRoundDiv p 60000 = 0) ∧
    (∀ d : ℕ, moSave d = if 0 < jsRoundDiv d 60 then some (jsRoundDiv d 60) else none) := by
  refine ⟨by simp [mptSave, h], ?_, ?_, ?_⟩
  · intro p hp
    have h1 := jsRoundDiv_60000_pos hp
    unfold specDurationMinutes
    omega
  · intro p hp
    exact jsRoundDiv_60000_zero hp
  · intro d
    simp [moSave]

/-- C1 amended, witnessed at a concrete input: a 90 s uninterrupted
session (tick counter 90, span 90000 ms, no pauses). -/
theorem c1_duration_minutes_amended_witness :
    mptSave 90 { startTime := 0, pauses := [] } 90000 =
        some (mptDurationMinutes { startTime := 0, pauses := [] } 90000) ∧
    (∀ p : ℕ, 30000 ≤ p → jsRoundDiv p 60000 = specDurationMinutes p) ∧
    (∀ p : ℕ, p < 30000 → jsRoundDiv p 60000 = 0) ∧
    (∀ d : ℕ, moSave d = if 0 < jsRoundDiv d 60 then some (jsRoundDiv d 60) else none) :=
  c1_duration_minutes_amended 90 { startTime := 0, pauses := [] } 90000 (by decide)

/-- C2: a successful `start()` (audio context available, resume succeeds
when needed) on a metronome configured with any bpm in [40, 200] emits
its first pulse synchronously during the call (the single tone in the
emitted list, i.e. at time 0 of the schedule) and installs the repeating
interval with period exactly `60000 / bpm` milliseconds, so consecutive
pulse times differ by exactly `60000 / bpm`. -/
theorem c2_start_period_and_first_pulse (env : AudioEnv) (s : MetState) (bpm : ℕ)
    (hbpm : s.settings.bpm = bpm) (h40 : 40 ≤ bpm) (h200 : bpm ≤ 200)
    (hp : s.isPlaying = false) (hsp : s.startInProgress = false)
    (hctx : env.ctxAvailable = true)
    (hres : env.suspended = true → env.resumeOk = true) :
    (startRun env s).2.1 = none ∧
    (startRun env s).2.2 = [beatTone s.settings 0] ∧
    ((startRun env s).1).intervalPeriodMs = some (60000 / (bpm : ℚ)) ∧
    pulseTime (60000 / (bpm : ℚ)) 0 = 0 ∧
    (∀ k : ℕ, pulseTime (60000 / (bpm : ℚ)) (k + 1) - pulseTime (60000 / (bpm : ℚ)) k
        = 60000 / (bpm : ℚ)) := by
  have key : startRun env s =
      ({ s with
          isPlaying := true
          beatCount := 1
          intervalPeriodMs := some (60000 / (s.settings.bpm : ℚ))
          startInProgress := false }, none, [beatTone s.settings 0]) := by
    cases hs : env.suspended
    · simp [startRun, hp, hsp, hctx, hs]
    · simp [startRun, hp, hsp, hctx, hs, hres hs]
  refine ⟨by rw [key], by rw [key], by rw [key]; simp [hbpm], by simp [pulseTime], ?_⟩
  intro k
  simp only [pulseTime]
  push_cast
  ring

/-- C2, witnessed at bpm 120 from a freshly mounted metronome with a
suspended audio context whose resume succeeds. -/
theorem c2_start_period_witness :
    (startRun { ctxAvailable := true, suspended := true, resumeOk := true }
        (initMetState defaultSettings)).2.1 = none ∧
    (startRun { ctxAvailable := true, suspended := true, resumeOk := true }
        (initMetState defaultSettings)).2.2 = [beatTone (initMetState defaultSettings).settings 0] ∧
    ((startRun { ctxAvailable := true, suspended := true, resumeOk := true }
        (initMetState defaultSettings)).1).intervalPeriodMs = some (60000 / (120 : ℚ)) ∧
    pulseTime (60000 / (120 : ℚ)) 0 = 0 ∧
    (∀ k : ℕ, pulseTime (60000 / (120 : ℚ)) (k + 1) - pulseTime (60000 / (120 : ℚ)) k
        = 60000 / (120 : ℚ)) :=
  c2_start_period_and_first_pulse _ _ 120 rfl (by decide) (by decide) rfl rfl rfl
    (fun _ => rfl)

/-- C3: the claim fails on the code.  Volume 0 is configurable (the
volume slider's minimum is 0); with `volume = 0`, `sound = click`,
`accent = true`, `timeSignature = 4`, beat 0 is an accent pulse and
beat 1 is not, yet the accent pulse's gain (`0 * 1.2 = 0`) is not
strictly higher than the non-accent gain (`0`). -/
theorem c3_accent_gain_counterexample :
    isAccentBeat zeroVolumeSettings 0 = true ∧
    isAccentBeat zeroVolumeSettings 1 = false ∧
    ¬ ((beatTone zeroVolumeSettings 0).peakGain >
        (beatTone zeroVolumeSettings 1).peakGain) := by
  refine ⟨by decide, by decide, ?_⟩
  simp [beatTone, createSound, zeroVolumeSettings, defaultSettings]

/-- C3 (amended): for any valid (positive) time signature, a beat is an
accent pulse iff `accent === true` and `beatIndex % timeSignature === 0`;
for the same sound setting an accent pulse always has a strictly higher
frequency than a non-accent pulse, and its gain is exactly 1.2 times the
non-accent gain — strictly higher whenever `volume > 0`, equal at
`volume = 0`. -/
theorem c3_accent_beats_amended (st : MetronomeSettings) (k j : ℕ)
    (hts : 0 < st.timeSignature)
    (hk : isAccentBeat st k = true) (hj : isAccentBeat st j = false) :
    (∀ i : ℕ, isAccentBeat st i = true ↔ st.accent = true ∧ i % st.timeSignature = 0) ∧
    (beatTone st k).frequency > (beatTone st j).frequency ∧
    (beatTone st k).peakGain = (6 / 5) * (beatTone st j).peakGain ∧
    (0 < st.volume → (beatTone st k).peakGain > (beatTone st j).peakGain) := by
  have hts' : st.timeSignature ≠ 0 := Nat.pos_iff_ne_zero.mp hts
  refine ⟨?_, ?_, ?_, ?_⟩
  · intro i
    simp [isAccentBeat, jsModZero, hts']
  · have hf : (0:ℚ) < soundFreqFactor st.sound := by
      cases st.sound <;> norm_num [soundFreqFactor]
    simp only [beatTone, createSound, hk, hj, if_pos, if_neg, Bool.false_eq_true,
      if_false, if_true]
    have : (400:ℚ) * soundFreqFactor st.sound < 800 * soundFreqFactor st.sound := by
      nlinarith
    simpa using this
  · simp only [beatTone, createSound, hk, hj, Bool.false_eq_true, if_false, if_true]
    ring
  · intro hv
    simp only [beatTone, createSound, hk, hj, Bool.false_eq_true, if_false, if_true]
    nlinarith

/-- C3 amended, witnessed at the default settings (volume 1, click,
accent on, 4/4), accent beat 0 against non-accent beat 1. -/
theorem c3_accent_beats_amended_witness :
    (∀ i : ℕ, isAccentBeat defaultSettings i = true ↔
        defaultSettings.accent = true ∧ i % defaultSettings.timeSignature = 0) ∧
    (beatTone defaultSettings 0).frequency > (beatTone defaultSettings 1).frequency ∧
    (beatTone defaultSettings 0).peakGain = (6 / 5) * (beatTone defaultSettings 1).peakGain ∧
    (0 < defaultSettings.volume →
      (beatTone defaultSettings 0).peakGain > (beatTone defaultSettings 1).peakGain) :=
  c3_accent_beats_amended defaultSettings 0 1 (by decide) (by decide) (by decide)

/-- C5: whenever audio initialization fails (no audio context) or the
asynchronous resume fails during a `start()` that actually runs its body,
the call propagates an error to the caller, emits no pulse, and leaves
`isPlaying` false. -/
theorem c5_start_failure_rolls_back (env : AudioEnv) (s : MetState)
    (hp : s.isPlaying = false) (hsp : s.startInProgress = false)
    (hfail : env.ctxAvailable = false ∨ (env.suspended = true ∧ env.resumeOk = false)) :
    ((startRun env s).2.1).isSome = true ∧
    ((startRun env s).1).isPlaying = false ∧
    (startRun env s).2.2 = [] := by
  rcases hfail with hc | ⟨hs, hr⟩
  · simp [startRun, hp, hsp, hc]
  · cases hc : env.ctxAvailable <;> simp [startRun, hp, hsp, hc, hs, hr]

/-- C5, witnessed with an audio context that is suspended and whose
resume fails, from a freshly mounted metronome. -/
theorem c5_start_failure_witness :
    ((startRun { ctxAvailable := true, suspended := true, resumeOk := false }
        (initMetState defaultSettings)).2.1).isSome = true ∧
    ((startRun { ctxAvailable := true, suspended := true, resumeOk := false }
        (initMetState defaultSettings)).1).isPlaying = false ∧
    (startRun { ctxAvailable := true, suspended := true, resumeOk := false }
        (initMetState defaultSettings)).2.2 = [] :=
  c5_start_failure_rolls_back _ _ rfl rfl (Or.inr ⟨rfl, rfl⟩)

/-- C6: the claim fails on the code.  After a successful start (beat
counter 1) and two interval firings (beat counter 3), `stop()` leaves the
internal beat counter `beatCountRef` at 3 — inspecting it before any
restart does not observe zero; only the exposed `currentBeat` state is
reset to 0. -/
theorem c6_stop_beat_counter_counterexample :
    (stopRun (intervalTick (intervalTick (startRun
        { ctxAvailable := true, suspended := false, resumeOk := true }
        (initMetState defaultSettings)).1).1).1).beatCount = 3 ∧
    ¬ ((stopRun (intervalTick (intervalTick (startRun
        { ctxAvailable := true, suspended := false, resumeOk := true }
        (initMetState defaultSettings)).1).1).1).beatCount = 0) ∧
    (stopRun (intervalTick (intervalTick (startRun
        { ctxAvailable := true, suspended := false, resumeOk := true }
        (initMetState defaultSettings)).1).1).1).currentBeat = 0 := by
  refine ⟨by decide, by decide, by decide⟩

/-- C6 (amended): `stop()` halts emission immediately (the interval is
cleared and `isPlaying` becomes false) and resets the exposed
`currentBeat` indicator to zero, but leaves the internal `beatCountRef`
unchanged; that counter is only reset to zero by the next `start()`. -/
theorem c6_stop_amended (s : MetState) :
    (stopRun s).intervalPeriodMs = none ∧
    (stopRun s).isPlaying = false ∧
    (stopRun s).currentBeat = 0 ∧
    (stopRun s).beatCount = s.beatCount := by
  refine ⟨rfl, rfl, rfl, rfl⟩

/-- C4: when a second `toggle()` call arrives while the first call's
promise is still unresolved (after the first call's synchronous prefix,
before its flag-reset timeout), the second call is a no-op — it changes
nothing and dispatches nothing — and across the whole interleaving the
playing/stopped state changes exactly once (assuming, as the claim's
scenario does, that the audio device works). -/
theorem c4_toggle_double_call_single_change (env : AudioEnv) (s : MetState)
    (ht : s.toggleInProgress = false) (hsp : s.startInProgress = false)
    (hctx : env.ctxAvailable = true)
    (hres : env.suspended = true → env.resumeOk = true) :
    togglePhase1 (togglePhase1 s).1 = ((togglePhase1 s).1, ToggleCont.ignored) ∧
    countFlips ((concurrentToggleTrace env s).map MetState.isPlaying) = 1 := by
  cases hp : s.isPlaying
  · constructor
    · simp [togglePhase1, ht, hp]
    · cases hs : env.suspended
      · simp [concurrentToggleTrace, togglePhase1, ht, hp, startRun, hsp, hctx, hs,
          toggleFlagReset, countFlips]
      · simp [concurrentToggleTrace, togglePhase1, ht, hp, startRun, hsp, hctx, hs,
          hres hs, toggleFlagReset, countFlips]
  · constructor
    · simp [togglePhase1, ht, hp, stopRun]
    · simp [concurrentToggleTrace, togglePhase1, ht, hp, stopRun, toggleFlagReset,
        countFlips]

/-- C4, witnessed from a freshly mounted metronome (not playing) with a
suspended audio context whose resume succeeds. -/
theorem c4_toggle_double_call_witness :
    togglePhase1 (togglePhase1 (initMetState defaultSettings)).1 =
      ((togglePhase1 (initMetState defaultSettings)).1, ToggleCont.ignored) ∧
    countFlips ((concurrentToggleTrace
        { ctxAvailable := true, suspended := true, resumeOk := true }
        (initMetState defaultSettings)).map MetState.isPlaying) = 1 :=
  c4_toggle_double_call_single_change _ _ rfl rfl rfl (fun _ => rfl)

/-- Helper: running a concatenation of slider event lists composes the
states and concatenates the emitted saves. -/
theorem sliderRun_append {T : Type} (l1 l2 : List (SliderEvent T)) (s : SliderState T) :
    sliderRun (l1 ++ l2) s =
      ((sliderRun l2 (sliderRun l1 s).1).1,
        (sliderRun l1 s).2 ++ (sliderRun l2 (sliderRun l1 s).1).2) := by
  induction l1 generalizing s with
  | nil => simp [sliderRun]
  | cons e l1 ih =>
    simp only [List.cons_append, sliderRun, List.append_eq]
    rw [ih]
    simp

/-- Helper: while interacting, a burst of `onChange` events only moves
`value`/`valueRef` to the last changed value — nothing is scheduled and
nothing fires. -/
theorem sliderRun_changes_interacting {T : Type} (vs : List T) (s : SliderState T)
    (h : s.isInteractingRef = true) :
    sliderRun (vs.map SliderEvent.change) s =
      ({ s with value := vs.getLastD s.value, valueRef := vs.getLastD s.valueRef }, []) := by
  induction vs generalizing s with
  | nil => simp [sliderRun]
  | cons v rest ih =>
    have hc : handleChange v s = { s with valueRef := v, value := v } := by
      simp [handleChange, h]
    simp only [List.map_cons, sliderRun, sliderStep, hc]
    rw [ih { s with valueRef := v, value := v } (by simp [h])]
    simp only [List.getLastD_cons, List.append_nil]

/-- C7: one interaction of the debounced slider — `onStart`, then any
nonempty burst of `onChange(v1..vn)`, then one `onEnd`, then the debounce
timeout firing — calls the save callback exactly once, and the value it
receives is `vn`, read from the live `valueRef` at fire time. -/
theorem c7_slider_saves_once_with_last_value {T : Type} (v0 : T) (vs : List T)
    (h : vs ≠ []) :
    (sliderRun (SliderEvent.interactStart ::
        (vs.map SliderEvent.change ++
          [SliderEvent.interactEnd, SliderEvent.fireTimeout]))
      (initSlider v0)).2 = [vs.getLast h] := by
  obtain ⟨v, rest, rfl⟩ : ∃ v rest, vs = v :: rest := by
    cases vs with
    | nil => exact absurd rfl h
    | cons a l => exact ⟨a, l, rfl⟩
  rw [show (SliderEvent.interactStart ::
      (List.map SliderEvent.change (v :: rest) ++
        [SliderEvent.interactEnd, SliderEvent.fireTimeout])) =
      ([SliderEvent.interactStart] ++ List.map SliderEvent.change (v :: rest)) ++
        [SliderEvent.interactEnd, SliderEvent.fireTimeout] from by simp]
  rw [sliderRun_append, sliderRun_append]
  simp only [sliderRun, sliderStep]
  rw [sliderRun_changes_interacting _ _
    (by simp [handleChange, handleStart, cancelSave, initSlider])]
  simp [handleChange, handleEnd, fireCurrent, handleStart, cancelSave,
    initSlider, List.getLastD_cons, List.getLast_eq_getLastD]

/-- C7, witnessed with the burst `onChange 1, onChange 2, onChange 3`
starting from initial value 0: the save callback receives exactly `[3]`. -/
theorem c7_slider_saves_once_witness :
    (sliderRun (SliderEvent.interactStart ::
        (([1, 2, 3] : List ℕ).map SliderEvent.change ++
          [SliderEvent.interactEnd, SliderEvent.fireTimeout]))
      (initSlider 0)).2 = [([1, 2, 3] : List ℕ).getLast (by decide)] :=
  c7_slider_saves_once_with_last_value 0 [1, 2, 3] (by decide)

/-- C8: the claim is violated by `MobilePracticeTimer`.  Concrete run
(times in ms): start at 0, one tick, pause at 5000, stop at 10000 —
`handleStop` neither closes the open pause nor resets the session, so
the stopped (not paused) state still holds one open pause; starting again
at 20000, ticking once and pausing at 25000 yields a session whose
pauses list holds two open (end-unset) intervals. -/
theorem c8_open_pause_invariant_violation :
    ((mptRun [MPTEvent.playPause 0, MPTEvent.tick, MPTEvent.playPause 5000,
        MPTEvent.stopTimer 10000] (initMPT (-1000))).isPaused = false ∧
      openPauseCount (mptRun [MPTEvent.playPause 0, MPTEvent.tick,
        MPTEvent.playPause 5000, MPTEvent.stopTimer 10000]
        (initMPT (-1000))).session.pauses = 1) ∧
    ((mptRun [MPTEvent.playPause 0, MPTEvent.tick, MPTEvent.playPause 5000,
        MPTEvent.stopTimer 10000, MPTEvent.playPause 20000, MPTEvent.tick,
        MPTEvent.playPause 25000] (initMPT (-1000))).isPaused = true ∧
      openPauseCount (mptRun [MPTEvent.playPause 0, MPTEvent.tick,
        MPTEvent.playPause 5000, MPTEvent.stopTimer 10000, MPTEvent.playPause 20000,
        MPTEvent.tick, MPTEvent.playPause 25000]
        (initMPT (-1000))).session.pauses = 2) := by
  refine ⟨⟨by decide, by decide⟩, ⟨by decide, by decide⟩⟩

/-- C9: `enableWakeLock()` never throws (the embedding is a total
function); when both the NoSleep.js fallback and the native lock fail it
resolves `false` and leaves `isWakeLockActive` false (the native handle
also untouched), and it resolves `true` with `isWakeLockActive` set
whenever either mechanism succeeds. -/
theorem c9_wake_lock_reconciliation (env : WakeEnv) (s : WakeState) :
    (¬ (env.noSleepAvailable = true ∧ env.noSleepEnableOk = true) →
      ¬ (env.nativeAvailable = true ∧ env.nativeRequestOk = true) →
      enableWakeLock env s = (false, { s with isWakeLockActive := false })) ∧
    ((env.noSleepAvailable = true ∧ env.noSleepEnableOk = true) ∨
      (env.nativeAvailable = true ∧ env.nativeRequestOk = true) →
      (enableWakeLock env s).1 = true ∧
      ((enableWakeLock env s).2).isWakeLockActive = true) := by
  obtain ⟨a, b, c, d⟩ := env
  obtain ⟨x, y⟩ := s
  cases a <;> cases b <;> cases c <;> cases d <;> cases x <;> cases y <;> decide

/-- C9, witnessed where both mechanisms are attempted and both fail
(NoSleep constructed but `enable()` rejects; native API present but
`request` rejects): resolves false, stays inactive, nothing thrown. -/
theorem c9_wake_lock_both_fail_witness :
    enableWakeLock
        { noSleepAvailable := true, noSleepEnableOk := false,
          nativeAvailable := true, nativeRequestOk := false }
        { isWakeLockActive := false, nativeHeld := false } =
      (false, { isWakeLockActive := false, nativeHeld := false }) :=
  (c9_wake_lock_reconciliation _ _).1 (by decide) (by decide)

/-- C10: an `initialValue` prop change arriving while `isInteracting` is
true leaves the whole hook state unchanged — and the update is dropped,
not deferred: ending the interaction afterwards still leaves
`value`/`valueRef` at their old contents.  When not interacting, a
changed `initialValue` overwrites the live value and the ref. -/
theorem c10_prop_update_dropped_while_interacting {T : Type}
    (s : SliderState T) (w : T) :
    (s.isInteractingRef = true →
      propUpdate w s = s ∧
      (handleEnd (propUpdate w s)).value = s.value ∧
      (handleEnd (propUpdate w s)).valueRef = s.valueRef) ∧
    (s.isInteractingRef = false →
      (propUpdate w s).value = w ∧ (propUpdate w s).valueRef = w) := by
  constructor
  · intro h
    simp [propUpdate, handleEnd, h]
  · intro h
    simp [propUpdate, h]

/-- C10, witnessed at concrete states: a prop update to 7 while
interacting (live value 3) is a complete no-op, and the same update when
idle overwrites the live value with 7. -/
theorem c10_prop_update_dropped_witness :
    (propUpdate 7 { initSlider (3 : ℕ) with isInteractingRef := true } =
        { initSlider (3 : ℕ) with isInteractingRef := true } ∧
      (handleEnd (propUpdate 7 { initSlider (3 : ℕ) with isInteractingRef := true })).value =
        ({ initSlider (3 : ℕ) with isInteractingRef := true } : SliderState ℕ).value ∧
      (handleEnd (propUpdate 7 { initSlider (3 : ℕ) with isInteractingRef := true })).valueRef =
        ({ initSlider (3 : ℕ) with isInteractingRef := true } : SliderState ℕ).valueRef) ∧
    ((propUpdate 7 (initSlider (3 : ℕ))).value = 7 ∧
      (propUpdate 7 (initSlider (3 : ℕ))).valueRef = 7) :=
  ⟨(c10_prop_update_dropped_while_interacting
      { initSlider (3 : ℕ) with isInteractingRef := true } 7).1 rfl,
    (c10_prop_update_dropped_while_interacting (initSlider (3 : ℕ)) 7).2 rfl⟩

end TenK
